import Mathlib

/-!
Shallow embedding of the LIM timer subsystem of
`drivers/staging/prima/CORE/MAC/src/pe/lim/limTimerUtils.c`
(the timer registry, per-kind reconfiguration switch, per-station pool
operations and the expiry handlers), together with the pieces of its
environment that the file reads (the configuration store, the message
queue and the ThreadX-style `tx_timer` primitives).

Conventions of the embedding:
* `tANI_U32` / `tANI_U16` values are modelled as `Nat`; none of the
  verified properties depends on 32-bit wraparound.
* The preprocessor configuration of the prima client driver is assumed:
  `ANI_PRODUCT_TYPE_CLIENT`, `WLAN_SOFTAP_FEATURE`,
  `WLAN_FEATURE_VOWIFI_11R` and `WLAN_FEATURE_P2P` defined,
  `ANI_PRODUCT_TYPE_AP`, `ANI_OS_TYPE_RTAI_LINUX` and `ANI_AP_SDK_OPT`
  not defined.
* Logging calls (`limLog`, `PELOG*`, `MTRACE`) have no effect on the
  modelled state and are dropped.
* Functions of the repository that `limTimerUtils.c` calls but whose
  sources are not available (the `tx_timer_*` time-source primitives,
  `wlan_cfgGetInt`, `limPostMsgApi`, `limGetPreAuthNodeFromIndex`) are
  modelled from the specification; each carries a doc comment saying so.
-/

namespace LimModel

/-- ThreadX success status (`TX_SUCCESS`). -/
def TX_SUCCESS : Nat := 0

/-- ThreadX timer-error status (`TX_TIMER_ERROR`); the concrete value is
immaterial, it only needs to differ from `TX_SUCCESS`. -/
def TX_TIMER_ERROR : Nat := 21

/-- ThreadX activate-error status (`TX_ACTIVATE_ERROR`); concrete value
immaterial. -/
def TX_ACTIVATE_ERROR : Nat := 10

/-- Modelled from the spec: the magic signature stamped on a created
timer (`TX_AIRGO_TMR_SIGNATURE`); the tx timer wrapper is not in the
sources, only the constant's distinctness matters. -/
def TX_AIRGO_TMR_SIGNATURE : Nat := 0xDEADBEEF

/-- Success status of the SIR layer (`eSIR_SUCCESS`). -/
def eSIR_SUCCESS : Nat := 0

/-- Generic failure status of the SIR layer. -/
def eSIR_FAILURE : Nat := 1

/-- Default background-scan period (ms) used when the configured period
is zero (`LIM_BACKGROUND_SCAN_PERIOD_DEFAULT_MS`, limTimerUtils.c:41). -/
def LIM_BACKGROUND_SCAN_PERIOD_DEFAULT_MS : Nat := 5000

/-- Initial channel-switch timer duration in ticks
(`LIM_CHANNEL_SWITCH_TIMER_TICKS`, limTimerUtils.c:43). -/
def LIM_CHANNEL_SWITCH_TIMER_TICKS : Nat := 1

/-- Initial quiet timer duration in ticks (`LIM_QUIET_TIMER_TICKS`,
limTimerUtils.c:45). -/
def LIM_QUIET_TIMER_TICKS : Nat := 100

/-- Initial quiet-BSS timer duration in ticks (`LIM_QUIET_BSS_TIMER_TICK`,
limTimerUtils.c:47). -/
def LIM_QUIET_BSS_TIMER_TICK : Nat := 100

/-- Default keep-alive period in ms (`LIM_KEEPALIVE_TIMER_MS`,
limTimerUtils.c:49). -/
def LIM_KEEPALIVE_TIMER_MS : Nat := 3000

/-- Modelled from the spec: `LIM_HASH_MISS_TIMER_MS`, the disassociate
throttle period (defined in a header not in the sources); its concrete
value is immaterial to the verified properties. -/
def LIM_HASH_MISS_TIMER_MS : Nat := 10000

/-- Modelled from the spec: the system tick duration in milliseconds
(`SYS_TICK_DUR_MS`, from a header not in the sources); the spec's §8
scenario fixes tick = 10 ms. -/
def SYS_TICK_DUR_MS : Nat := 10

/-- Modelled from the spec: `SYS_MS_TO_TICKS` converts milliseconds to
ticks by (flooring) division by the tick duration; callers wanting
ceiling rounding add `SYS_TICK_DUR_MS - 1` themselves (spec §4.1). -/
def SYS_MS_TO_TICKS (ms : Nat) : Nat := ms / SYS_TICK_DUR_MS

/-- A live ThreadX-style timer (`TX_TIMER`): activation state, initial
and reschedule tick counts, creation signature, the stored initial
schedule time in ms, and the owning session id (used by the CNF-wait
pool). -/
structure TxTimer where
  active : Bool
  initTicks : Nat
  reloadTicks : Nat
  tmrSignature : Nat
  initScheduleTimeInMsecs : Nat
  sessionId : Nat
deriving DecidableEq

/-- Modelled from the spec: the time source's deactivate operation
(§6); it clears the activation state and reports success. -/
def tx_timer_deactivate (t : TxTimer) : TxTimer × Nat :=
  ({t with active := false}, TX_SUCCESS)

/-- Modelled from the spec: the time source's change operation (§4.2,
§6): legal only on a deactivated timer (enforced as a precondition); it
stores the new initial and reload tick counts, mirroring the initial
duration in ms in `initScheduleTimeInMsecs`. -/
def tx_timer_change (t : TxTimer) (initTicks reloadTicks : Nat) : TxTimer × Nat :=
  if t.active then (t, TX_ACTIVATE_ERROR)
  else ({t with
          initTicks := initTicks
          reloadTicks := reloadTicks
          initScheduleTimeInMsecs := initTicks * SYS_TICK_DUR_MS}, TX_SUCCESS)

/-- Modelled from the spec: the time source's activate operation (§6);
activating an already active timer is rejected. -/
def tx_timer_activate (t : TxTimer) : TxTimer × Nat :=
  if t.active then (t, TX_ACTIVATE_ERROR)
  else ({t with active := true}, TX_SUCCESS)

/-- The configuration keys read by `limTimerUtils.c` (`WNI_CFG_*`). -/
inductive CfgKey
  | WNI_CFG_ACTIVE_MINIMUM_CHANNEL_TIME
  | WNI_CFG_ACTIVE_MAXIMUM_CHANNEL_TIME
  | WNI_CFG_JOIN_FAILURE_TIMEOUT
  | WNI_CFG_ASSOCIATION_FAILURE_TIMEOUT
  | WNI_CFG_REASSOCIATION_FAILURE_TIMEOUT
  | WNI_CFG_ADDTS_RSP_TIMEOUT
  | WNI_CFG_AUTHENTICATE_FAILURE_TIMEOUT
  | WNI_CFG_BEACON_INTERVAL
  | WNI_CFG_PROBE_AFTER_HB_FAIL_TIMEOUT
  | WNI_CFG_BACKGROUND_SCAN_PERIOD
  | WNI_CFG_KEEPALIVE_TIMEOUT
  | WNI_CFG_WT_CNF_TIMEOUT
  | WNI_CFG_MAX_NUM_PRE_AUTH
  | WNI_CFG_OLBC_DETECT_TIMEOUT
  | WNI_CFG_HEART_BEAT_THRESHOLD
  | WNI_CFG_AUTHENTICATE_RSP_TIMEOUT
deriving DecidableEq

/-- Modelled from the spec: the configuration store's integer lookup
(`wlan_cfgGetInt`, §6); the store is modelled as a total map, matching
the success path (on lookup failure the code only logs and proceeds). -/
def wlan_cfgGetInt (cfg : CfgKey → Nat) (k : CfgKey) : Nat := cfg k

/-- The quiet-period state machine values tested by the code
(`tLimQuietStates`); only equality with `eLIM_QUIET_RUNNING` is ever
tested in this file. -/
inductive QuietState
  | eLIM_QUIET_INIT
  | eLIM_QUIET_BEGIN
  | eLIM_QUIET_CHANGED
  | eLIM_QUIET_RUNNING
  | eLIM_QUIET_END
deriving DecidableEq

/-- The system role values tested by the code; only the distinction
AP-role versus not-AP-role is ever tested in this file. -/
inductive SystemRole
  | eLIM_AP_ROLE
  | eLIM_STA_ROLE
deriving DecidableEq

/-- The fields of `pMac->lim.gLimSpecMgmt` read by this file: the quiet
state, the quiet duration (cached in ticks) and the quiet timeout value
(in ms, converted at use). -/
structure SpecMgmt where
  quietState : QuietState
  quietDuration : Nat
  quietTimeoutValue : Nat
deriving DecidableEq

/-- The fields of the active MLM scan request (`*pMac->lim.gpLimMlmScanReq`)
read by this file: min and max channel time in ms. -/
structure MlmScanReq where
  minChannelTime : Nat
  maxChannelTime : Nat
deriving DecidableEq

/-- The fields of a PE session (`tpPESession`) read by this file. -/
structure PESession where
  beaconInterval : Nat
  peSessionId : Nat
deriving DecidableEq

/-- A pre-auth table node (`tLimPreAuthNode`): only its embedded timer
is touched by this file. -/
structure PreAuthNode where
  timer : TxTimer
deriving DecidableEq

/-- The slice of the global MAC structure (`tpAniSirGlobal`) that
`limTimerUtils.c` reads and writes: the configuration store, role,
spec-mgmt quiet data, scan request, the flags it sets, and the live
timers (singletons, the CNF-wait pool array, and the pre-auth table). -/
structure AniSirGlobal where
  cfg : CfgKey → Nat
  gLimSystemRole : SystemRole
  gLimSpecMgmt : SpecMgmt
  gLimTriggerBackgroundScanDuringQuietBss : Bool
  gpLimMlmScanReq : Option MlmScanReq
  gLimBackgroundScanDisable : Bool
  schKeepAlive : Nat
  gLimMinChannelTimer : TxTimer
  gLimMaxChannelTimer : TxTimer
  gLimHeartBeatTimer : TxTimer
  gLimKeepaliveTimer : TxTimer
  gLimBackgroundScanTimer : TxTimer
  gLimQuietTimer : TxTimer
  gLimQuietBssTimer : TxTimer
  gpLimCnfWaitTimer : List TxTimer
  gLimPreAuthTimerTable : List PreAuthNode

/-- The timer ids of the `limDeactivateAndChangeTimer` switch that this
development embeds (each constructor corresponds verbatim to one case
arm of limTimerUtils.c:858-1547). -/
inductive TimerId
  | eLIM_MIN_CHANNEL_TIMER
  | eLIM_MAX_CHANNEL_TIMER
  | eLIM_HEART_BEAT_TIMER
  | eLIM_KEEPALIVE_TIMER
  | eLIM_BACKGROUND_SCAN_TIMER
  | eLIM_QUIET_TIMER
  | eLIM_QUIET_BSS_TIMER
deriving DecidableEq

/-- `limDeactivateAndChangeTimer` (limTimerUtils.c:851-1548), restricted
to the embedded case arms.  Each arm first deactivates the timer, then
recomputes the duration exactly as the source does, and finally applies
`tx_timer_change`:
* `eLIM_MIN_CHANNEL_TIMER` (lines 871-914): quiet-running with
  background-scan-trigger uses `gLimSpecMgmt.quietDuration` as is;
  otherwise the scan request's `minChannelTime` is converted ms→ticks;
  with no scan request the case breaks after the deactivation.
* `eLIM_MAX_CHANNEL_TIMER` (lines 916-982): same, behind the
  not-AP-role test, with `maxChannelTime`; in AP role `val` stays 0.
* `eLIM_HEART_BEAT_TIMER` (lines 1123-1161): beacon interval times
  heart-beat threshold, both read from the config store, ms→ticks.
* `eLIM_KEEPALIVE_TIMER` (lines 1198-1240): zero config value is
  replaced by 3000 ms and clears `sch.keepAlive`, nonzero sets it; the
  duration is ceiling-rounded to a full tick and doubles as the reload.
* `eLIM_BACKGROUND_SCAN_TIMER` (lines 1243-1283): zero config value is
  replaced by the default 5000 ms and sets `gLimBackgroundScanDisable`;
  duration doubles as the reload.
* `eLIM_QUIET_BSS_TIMER` (lines 1424-1442): `gLimSpecMgmt.quietDuration`
  is passed to `tx_timer_change` as is (already in ticks).
* `eLIM_QUIET_TIMER` (lines 1444-1458): `gLimSpecMgmt.quietTimeoutValue`
  is converted via `SYS_MS_TO_TICKS` before being passed. -/
def limDeactivateAndChangeTimer (pMac : AniSirGlobal) (timerId : TimerId) : AniSirGlobal :=
  match timerId with
  | TimerId.eLIM_MIN_CHANNEL_TIMER =>
      let pMac2 := {pMac with gLimMinChannelTimer := (tx_timer_deactivate pMac.gLimMinChannelTimer).1}
      if pMac2.gLimSpecMgmt.quietState = QuietState.eLIM_QUIET_RUNNING ∧
         pMac2.gLimTriggerBackgroundScanDuringQuietBss = true then
        {pMac2 with gLimMinChannelTimer :=
          (tx_timer_change pMac2.gLimMinChannelTimer pMac2.gLimSpecMgmt.quietDuration 0).1}
      else
        match pMac2.gpLimMlmScanReq with
        | some req =>
            {pMac2 with gLimMinChannelTimer :=
              (tx_timer_change pMac2.gLimMinChannelTimer (SYS_MS_TO_TICKS req.minChannelTime) 0).1}
        | none => pMac2
  | TimerId.eLIM_MAX_CHANNEL_TIMER =>
      let pMac2 := {pMac with gLimMaxChannelTimer := (tx_timer_deactivate pMac.gLimMaxChannelTimer).1}
      if pMac2.gLimSystemRole ≠ SystemRole.eLIM_AP_ROLE then
        if pMac2.gLimSpecMgmt.quietState = QuietState.eLIM_QUIET_RUNNING ∧
           pMac2.gLimTriggerBackgroundScanDuringQuietBss = true then
          {pMac2 with gLimMaxChannelTimer :=
            (tx_timer_change pMac2.gLimMaxChannelTimer pMac2.gLimSpecMgmt.quietDuration 0).1}
        else
          match pMac2.gpLimMlmScanReq with
          | some req =>
              {pMac2 with gLimMaxChannelTimer :=
                (tx_timer_change pMac2.gLimMaxChannelTimer (SYS_MS_TO_TICKS req.maxChannelTime) 0).1}
          | none => pMac2
      else
        {pMac2 with gLimMaxChannelTimer := (tx_timer_change pMac2.gLimMaxChannelTimer 0 0).1}
  | TimerId.eLIM_HEART_BEAT_TIMER =>
      let pMac2 := {pMac with gLimHeartBeatTimer := (tx_timer_deactivate pMac.gLimHeartBeatTimer).1}
      let val := wlan_cfgGetInt pMac2.cfg CfgKey.WNI_CFG_BEACON_INTERVAL
      let val1 := wlan_cfgGetInt pMac2.cfg CfgKey.WNI_CFG_HEART_BEAT_THRESHOLD
      {pMac2 with gLimHeartBeatTimer :=
        (tx_timer_change pMac2.gLimHeartBeatTimer (SYS_MS_TO_TICKS (val * val1)) 0).1}
  | TimerId.eLIM_KEEPALIVE_TIMER =>
      let pMac2 := {pMac with gLimKeepaliveTimer := (tx_timer_deactivate pMac.gLimKeepaliveTimer).1}
      let v0 := wlan_cfgGetInt pMac2.cfg CfgKey.WNI_CFG_KEEPALIVE_TIMEOUT
      let v := if v0 = 0 then 3000 else v0
      let pMac3 := {pMac2 with schKeepAlive := if v0 = 0 then 0 else 1}
      let ticks := SYS_MS_TO_TICKS (v + SYS_TICK_DUR_MS - 1)
      {pMac3 with gLimKeepaliveTimer := (tx_timer_change pMac3.gLimKeepaliveTimer ticks ticks).1}
  | TimerId.eLIM_BACKGROUND_SCAN_TIMER =>
      let pMac2 := {pMac with gLimBackgroundScanTimer := (tx_timer_deactivate pMac.gLimBackgroundScanTimer).1}
      let v0 := wlan_cfgGetInt pMac2.cfg CfgKey.WNI_CFG_BACKGROUND_SCAN_PERIOD
      let v := if v0 = 0 then LIM_BACKGROUND_SCAN_PERIOD_DEFAULT_MS else v0
      let pMac3 := {pMac2 with gLimBackgroundScanDisable := if v0 = 0 then true else false}
      let ticks := SYS_MS_TO_TICKS v
      {pMac3 with gLimBackgroundScanTimer := (tx_timer_change pMac3.gLimBackgroundScanTimer ticks ticks).1}
  | TimerId.eLIM_QUIET_BSS_TIMER =>
      let pMac2 := {pMac with gLimQuietBssTimer := (tx_timer_deactivate pMac.gLimQuietBssTimer).1}
      {pMac2 with gLimQuietBssTimer :=
        (tx_timer_change pMac2.gLimQuietBssTimer pMac2.gLimSpecMgmt.quietDuration 0).1}
  | TimerId.eLIM_QUIET_TIMER =>
      let pMac2 := {pMac with gLimQuietTimer := (tx_timer_deactivate pMac.gLimQuietTimer).1}
      {pMac2 with gLimQuietTimer :=
        (tx_timer_change pMac2.gLimQuietTimer (SYS_MS_TO_TICKS pMac2.gLimSpecMgmt.quietTimeoutValue) 0).1}

/-- `limHeartBeatDeactivateAndChangeTimer` (limTimerUtils.c:1561-1584):
deactivates the heart-beat timer and changes it to the session's beacon
interval times the configured heart-beat threshold, ms→ticks; the
beacon interval comes from the session entry, the threshold from the
config store, both read on this call. -/
def limHeartBeatDeactivateAndChangeTimer (pMac : AniSirGlobal) (psessionEntry : PESession) : AniSirGlobal :=
  let pMac2 := {pMac with gLimHeartBeatTimer := (tx_timer_deactivate pMac.gLimHeartBeatTimer).1}
  let val := psessionEntry.beaconInterval
  let val1 := wlan_cfgGetInt pMac2.cfg CfgKey.WNI_CFG_HEART_BEAT_THRESHOLD
  {pMac2 with gLimHeartBeatTimer :=
    (tx_timer_change pMac2.gLimHeartBeatTimer (SYS_MS_TO_TICKS (val * val1)) 0).1}

/-- `limReactivateHeartBeatTimer` (limTimerUtils.c:1596-1613): runs the
heart-beat deactivate-and-change, then activates the timer only when
its stored initial schedule time is nonzero (the external
`limResetHBPktCount` bookkeeping is outside the modelled state). -/
def limReactivateHeartBeatTimer (pMac : AniSirGlobal) (psessionEntry : PESession) : AniSirGlobal :=
  let pMac2 := limHeartBeatDeactivateAndChangeTimer pMac psessionEntry
  if pMac2.gLimHeartBeatTimer.initScheduleTimeInMsecs > 0 then
    {pMac2 with gLimHeartBeatTimer := (tx_timer_activate pMac2.gLimHeartBeatTimer).1}
  else pMac2

/-- `limActivateHearBeatTimer` (limTimerUtils.c:1720-1743): returns
`TX_TIMER_ERROR` untouched unless the timer's signature is valid; with a
valid signature it activates only when the stored initial schedule time
is nonzero, and treats a zero interval as success without activating. -/
def limActivateHearBeatTimer (pMac : AniSirGlobal) : Nat × AniSirGlobal :=
  if pMac.gLimHeartBeatTimer.tmrSignature = TX_AIRGO_TMR_SIGNATURE then
    if pMac.gLimHeartBeatTimer.initScheduleTimeInMsecs ≠ 0 then
      ((tx_timer_activate pMac.gLimHeartBeatTimer).2,
       {pMac with gLimHeartBeatTimer := (tx_timer_activate pMac.gLimHeartBeatTimer).1})
    else (TX_SUCCESS, pMac)
  else (TX_TIMER_ERROR, pMac)

/-- The timer ids of the `limDeactivateAndChangePerStaIdTimer` switch
that are compiled in the prima client configuration (the learn-interval
arm is under an AP-only preprocessor guard). -/
inductive PerStaTimerId
  | eLIM_CNF_WAIT_TIMER
  | eLIM_AUTH_RSP_TIMER
deriving DecidableEq

/-- Outcome of a per-station-id pool operation:
* `ok s` — the operation completed, producing state `s`;
* `invalidIndex s` — the operation detected an invalid index, reported
  it, and returned with state `s` untouched;
* `outOfBounds` — the C code performed an out-of-bounds array access
  (undefined behaviour; no defined resulting state exists). -/
inductive PerStaResult
  | ok (s : AniSirGlobal)
  | invalidIndex (s : AniSirGlobal)
  | outOfBounds

/-- Modelled from the spec: `limGetPreAuthNodeFromIndex` (defined in a
file not in the sources) is the bounds-checked pre-auth pool lookup
(§4.2 `pool_get`): an index past the table yields no node (NULL). -/
def limGetPreAuthNodeFromIndex (tbl : List PreAuthNode) (idx : Nat) : Option PreAuthNode :=
  tbl.get? idx

/-- `limDeactivateAndChangePerStaIdTimer` (limTimerUtils.c:1769-1893):
* `eLIM_CNF_WAIT_TIMER` (lines 1777-1809): indexes
  `gpLimCnfWaitTimer[staId]` with NO bounds check, deactivates it and
  changes it to the configured CNF timeout (ms→ticks, reload equal); an
  index past the array is an out-of-bounds access.
* `eLIM_AUTH_RSP_TIMER` (lines 1811-1851): looks the node up through
  `limGetPreAuthNodeFromIndex`; a NULL node is reported and the case
  breaks with the state untouched; otherwise the node's timer is
  deactivated and changed to the configured auth-response timeout. -/
def limDeactivateAndChangePerStaIdTimer (pMac : AniSirGlobal) (timerId : PerStaTimerId) (staId : Nat) : PerStaResult :=
  match timerId with
  | PerStaTimerId.eLIM_CNF_WAIT_TIMER =>
      match pMac.gpLimCnfWaitTimer.get? staId with
      | none => PerStaResult.outOfBounds
      | some t =>
          let t2 := (tx_timer_deactivate t).1
          let val := SYS_MS_TO_TICKS (wlan_cfgGetInt pMac.cfg CfgKey.WNI_CFG_WT_CNF_TIMEOUT)
          let t3 := (tx_timer_change t2 val val).1
          PerStaResult.ok {pMac with gpLimCnfWaitTimer := pMac.gpLimCnfWaitTimer.set staId t3}
  | PerStaTimerId.eLIM_AUTH_RSP_TIMER =>
      match limGetPreAuthNodeFromIndex pMac.gLimPreAuthTimerTable staId with
      | none => PerStaResult.invalidIndex pMac
      | some node =>
          let t2 := (tx_timer_deactivate node.timer).1
          let val := SYS_MS_TO_TICKS (wlan_cfgGetInt pMac.cfg CfgKey.WNI_CFG_AUTHENTICATE_RSP_TIMEOUT)
          let t3 := (tx_timer_change t2 val 0).1
          PerStaResult.ok {pMac with gLimPreAuthTimerTable :=
            pMac.gLimPreAuthTimerTable.set staId {timer := t3}}

/-- `limActivateCnfTimer` (limTimerUtils.c:1916-1926): writes the
session id into `gpLimCnfWaitTimer[staId]` and activates it, with NO
bounds check on `staId`; an index past the array is an out-of-bounds
access. -/
def limActivateCnfTimer (pMac : AniSirGlobal) (staId : Nat) (psessionEntry : PESession) : PerStaResult :=
  match pMac.gpLimCnfWaitTimer.get? staId with
  | none => PerStaResult.outOfBounds
  | some t =>
      let t2 := {t with sessionId := psessionEntry.peSessionId}
      let t3 := (tx_timer_activate t2).1
      PerStaResult.ok {pMac with gpLimCnfWaitTimer := pMac.gpLimCnfWaitTimer.set staId t3}

/-- A message posted to the LIM queue (`tSirMsgQ`); `bodyptr` is always
NULL in this file and is omitted. -/
structure SirMsgQ where
  type : Nat
  bodyval : Nat
deriving DecidableEq

/-- The LIM message queue, with a finite capacity so that a full sink
can reject an enqueue. -/
structure MsgQueue where
  msgs : List SirMsgQ
  capacity : Nat
deriving DecidableEq

/-- Modelled from the spec: `limPostMsgApi` (not in the sources) is the
Event Sink enqueue (§6): it appends the message and succeeds, or leaves
the queue unchanged and fails when the sink is full. -/
def limPostMsgApi (q : MsgQueue) (msg : SirMsgQ) : MsgQueue × Nat :=
  if q.msgs.length < q.capacity then ({q with msgs := q.msgs ++ [msg]}, eSIR_SUCCESS)
  else (q, eSIR_FAILURE)

/-- Modelled from the spec: message type tag (concrete values are
immaterial, chosen distinct). -/
def SIR_LIM_ADDTS_RSP_TIMEOUT : Nat := 101

/-- Modelled from the spec: message type tag. -/
def SIR_LIM_AUTH_RSP_TIMEOUT : Nat := 102

/-- Modelled from the spec: message type tag. -/
def SIR_LIM_ASSOC_FAIL_TIMEOUT : Nat := 103

/-- Modelled from the spec: message type tag. -/
def SIR_LIM_UPDATE_OLBC_CACHEL_TIMEOUT : Nat := 104

/-- Modelled from the spec: message type tag. -/
def SIR_LIM_HASH_MISS_THRES_TIMEOUT : Nat := 105

/-- Modelled from the spec: message type tag. -/
def SIR_LIM_CNF_WAIT_TIMEOUT : Nat := 106

/-- Modelled from the spec: message type tag. -/
def SIR_LIM_KEEPALIVE_TIMEOUT : Nat := 107

/-- Modelled from the spec: message type tag. -/
def SIR_LIM_CHANNEL_SWITCH_TIMEOUT : Nat := 108

/-- Modelled from the spec: message type tag. -/
def SIR_LIM_QUIET_TIMEOUT : Nat := 109

/-- Modelled from the spec: message type tag. -/
def SIR_LIM_QUIET_BSS_TIMEOUT : Nat := 110

/-- `limTimerHandler` (limTimerUtils.c:658-675): builds one message
whose type is the timer's expiration parameter and body is 0, posts it,
and on posting failure only logs; it touches no other state. -/
def limTimerHandler (pMac : AniSirGlobal) (q : MsgQueue) (param : Nat) : AniSirGlobal × MsgQueue :=
  (pMac, (limPostMsgApi q {type := param, bodyval := 0}).1)

/-- `limAddtsResponseTimerHandler` (limTimerUtils.c:699-712): posts one
`SIR_LIM_ADDTS_RSP_TIMEOUT` message carrying the parameter. -/
def limAddtsResponseTimerHandler (pMac : AniSirGlobal) (q : MsgQueue) (param : Nat) : AniSirGlobal × MsgQueue :=
  (pMac, (limPostMsgApi q {type := SIR_LIM_ADDTS_RSP_TIMEOUT, bodyval := param}).1)

/-- `limAuthResponseTimerHandler` (limTimerUtils.c:736-749): posts one
`SIR_LIM_AUTH_RSP_TIMEOUT` message carrying the auth node index. -/
def limAuthResponseTimerHandler (pMac : AniSirGlobal) (q : MsgQueue) (param : Nat) : AniSirGlobal × MsgQueue :=
  (pMac, (limPostMsgApi q {type := SIR_LIM_AUTH_RSP_TIMEOUT, bodyval := param}).1)

/-- `limAssocFailureTimerHandler` (limTimerUtils.c:775-788): posts one
`SIR_LIM_ASSOC_FAIL_TIMEOUT` message carrying the assoc/reassoc tag. -/
def limAssocFailureTimerHandler (pMac : AniSirGlobal) (q : MsgQueue) (param : Nat) : AniSirGlobal × MsgQueue :=
  (pMac, (limPostMsgApi q {type := SIR_LIM_ASSOC_FAIL_TIMEOUT, bodyval := param}).1)

/-- `limUpdateOlbcCacheTimerHandler` (limTimerUtils.c:813-826): posts
one `SIR_LIM_UPDATE_OLBC_CACHEL_TIMEOUT` message with body 0. -/
def limUpdateOlbcCacheTimerHandler (pMac : AniSirGlobal) (q : MsgQueue) (_param : Nat) : AniSirGlobal × MsgQueue :=
  (pMac, (limPostMsgApi q {type := SIR_LIM_UPDATE_OLBC_CACHEL_TIMEOUT, bodyval := 0}).1)

/-- `limSendDisassocFrameThresholdHandler` (limTimerUtils.c:1979-1994):
posts one `SIR_LIM_HASH_MISS_THRES_TIMEOUT` message with body 0; on
posting failure only logs. -/
def limSendDisassocFrameThresholdHandler (pMac : AniSirGlobal) (q : MsgQueue) (_param : Nat) : AniSirGlobal × MsgQueue :=
  (pMac, (limPostMsgApi q {type := SIR_LIM_HASH_MISS_THRES_TIMEOUT, bodyval := 0}).1)

/-- `limCnfWaitTmerHandler` (limTimerUtils.c:2014-2029): posts one
`SIR_LIM_CNF_WAIT_TIMEOUT` message carrying the station id; on posting
failure only logs. -/
def limCnfWaitTmerHandler (pMac : AniSirGlobal) (q : MsgQueue) (param : Nat) : AniSirGlobal × MsgQueue :=
  (pMac, (limPostMsgApi q {type := SIR_LIM_CNF_WAIT_TIMEOUT, bodyval := param}).1)

/-- `limKeepaliveTmerHandler` (limTimerUtils.c:2049-2064): posts one
`SIR_LIM_KEEPALIVE_TIMEOUT` message carrying the parameter; on posting
failure only logs. -/
def limKeepaliveTmerHandler (pMac : AniSirGlobal) (q : MsgQueue) (param : Nat) : AniSirGlobal × MsgQueue :=
  (pMac, (limPostMsgApi q {type := SIR_LIM_KEEPALIVE_TIMEOUT, bodyval := param}).1)

/-- `limChannelSwitchTimerHandler` (limTimerUtils.c:2066-2080): posts
one `SIR_LIM_CHANNEL_SWITCH_TIMEOUT` message carrying the parameter. -/
def limChannelSwitchTimerHandler (pMac : AniSirGlobal) (q : MsgQueue) (param : Nat) : AniSirGlobal × MsgQueue :=
  (pMac, (limPostMsgApi q {type := SIR_LIM_CHANNEL_SWITCH_TIMEOUT, bodyval := param}).1)

/-- `limQuietTimerHandler` (limTimerUtils.c:2082-2095): posts one
`SIR_LIM_QUIET_TIMEOUT` message carrying the parameter. -/
def limQuietTimerHandler (pMac : AniSirGlobal) (q : MsgQueue) (param : Nat) : AniSirGlobal × MsgQueue :=
  (pMac, (limPostMsgApi q {type := SIR_LIM_QUIET_TIMEOUT, bodyval := param}).1)

/-- `limQuietBssTimerHandler` (limTimerUtils.c:2097-2109): posts one
`SIR_LIM_QUIET_BSS_TIMEOUT` message carrying the parameter. -/
def limQuietBssTimerHandler (pMac : AniSirGlobal) (q : MsgQueue) (param : Nat) : AniSirGlobal × MsgQueue :=
  (pMac, (limPostMsgApi q {type := SIR_LIM_QUIET_BSS_TIMEOUT, bodyval := param}).1)

/-- An expiry handler is a pure dispatcher for the event map `ev`: it
leaves the MAC state untouched, enqueues exactly the one event `ev
param` when the sink has room, and drops the event leaving the sink
unchanged (no retry) when the sink is full.  Since `ev` does not take
the MAC state, the enqueued event depends on neither the configuration
store nor any timer state. -/
def DispatchOnly (h : AniSirGlobal → MsgQueue → Nat → AniSirGlobal × MsgQueue)
    (ev : Nat → SirMsgQ) : Prop :=
  ∀ pMac q param,
    (h pMac q param).1 = pMac ∧
    (q.msgs.length < q.capacity → (h pMac q param).2.msgs = q.msgs ++ [ev param]) ∧
    (q.capacity ≤ q.msgs.length → (h pMac q param).2 = q)

/-- The timers that `limCreateTimers` attempts to create, in the prima
client configuration, plus the two auto-created ones; `cnfWait i` is the
i-th CNF-wait pool slot. -/
inductive TimerKindC
  | minChannel
  | maxChannel
  | channelSwitch
  | quietBegin
  | quietBss
  | joinFailure
  | assocFailure
  | reassocFailure
  | addtsRsp
  | authFailure
  | heartBeat
  | probeAfterHB
  | backgroundScan
  | disassocThreshold
  | keepalive
  | cnfWait (i : Nat)
  | olbc
  | ftPreAuthRsp
  | remainOnChannel
deriving DecidableEq

/-- One `tx_timer_create` call as issued by `limCreateTimers`: the timer
kind, the computed initial and reschedule tick counts, and whether
`TX_AUTO_ACTIVATE` was requested. -/
structure TimerCreate where
  kind : TimerKindC
  initTicks : Nat
  reloadTicks : Nat
  autoActivate : Bool
deriving DecidableEq

/-- The environment `limCreateTimers` runs in: the configuration store,
system role, CNF-wait pool capacity (`pMac->lim.maxStation`), which
`tx_timer_create` calls succeed, and whether the pre-auth table
allocation (`palAllocateMemory`) succeeds. -/
structure CreateEnv where
  cfg : CfgKey → Nat
  role : SystemRole
  maxStation : Nat
  createOk : TimerKindC → Bool
  allocOk : Bool

/-- The observable outcome of `limCreateTimers`: the ordered trace of
`tx_timer_create` calls issued, the flags the function assigned (absent
if control never reached the assignment), whether the pre-auth table
was sized and allocated, and whether the function ran to completion
(`pMac->lim.gLimTimersCreated = 1`). -/
structure CreateOut where
  attempts : List TimerCreate
  gLimBackgroundScanDisable : Option Bool
  schKeepAlive : Option Nat
  preAuthNumEntry : Option Nat
  preAuthAllocated : Bool
  gLimTimersCreated : Bool

/-- The background-scan period actually used: a configured value of 0
is replaced by the 5000 ms default (limTimerUtils.c:403-409). -/
def backgroundScanResolvedMs (v : Nat) : Nat :=
  if v = 0 then LIM_BACKGROUND_SCAN_PERIOD_DEFAULT_MS else v

/-- The value assigned to `gLimBackgroundScanDisable`: true exactly when
the configured period is 0 (limTimerUtils.c:403-409). -/
def backgroundScanDisableFlag (v : Nat) : Bool :=
  if v = 0 then true else false

/-- The keep-alive period actually used: a configured value of 0 is
replaced by the 3000 ms default (limTimerUtils.c:470-475). -/
def keepaliveResolvedMs (v : Nat) : Nat :=
  if v = 0 then LIM_KEEPALIVE_TIMER_MS else v

/-- The keep-alive tick count used at creation: the resolved period
plus `SYS_TICK_DUR_MS - 1`, converted ms→ticks, i.e. a ceiling rounding
to a full tick (limTimerUtils.c:478). -/
def keepaliveTicks (v : Nat) : Nat :=
  SYS_MS_TO_TICKS (keepaliveResolvedMs v + SYS_TICK_DUR_MS - 1)

/-- The value assigned to `pMac->sch.keepAlive`: 0 exactly when the
configured value is 0 (limTimerUtils.c:470-475). -/
def keepaliveFlag (v : Nat) : Nat :=
  if v = 0 then 0 else 1

/-- The not-AP-role block of `limCreateTimers` (limTimerUtils.c:142-427):
channel-switch, quiet, quiet-BSS, join-, assoc-, reassoc-failure, ADDTS,
auth-failure timers (each aborting the whole function on creation
failure), then the heart-beat, probe-after-HB and background-scan timers
(creation failure only logged, execution continues).  `Except.error`
carries the attempt trace at an early `return`; `Except.ok` carries the
trace and the assigned `gLimBackgroundScanDisable` value. -/
def createStaBlock (env : CreateEnv) (a0 : List TimerCreate) :
    Except (List TimerCreate) (List TimerCreate × Option Bool) :=
  let a1 := a0 ++ [{kind := TimerKindC.channelSwitch, initTicks := LIM_CHANNEL_SWITCH_TIMER_TICKS,
                    reloadTicks := 0, autoActivate := false}]
  if env.createOk TimerKindC.channelSwitch = false then Except.error a1 else
  let a2 := a1 ++ [{kind := TimerKindC.quietBegin, initTicks := LIM_QUIET_TIMER_TICKS,
                    reloadTicks := 0, autoActivate := false}]
  if env.createOk TimerKindC.quietBegin = false then Except.error a2 else
  let a3 := a2 ++ [{kind := TimerKindC.quietBss, initTicks := LIM_QUIET_BSS_TIMER_TICK,
                    reloadTicks := 0, autoActivate := false}]
  if env.createOk TimerKindC.quietBss = false then Except.error a3 else
  let a4 := a3 ++ [{kind := TimerKindC.joinFailure,
                    initTicks := SYS_MS_TO_TICKS (env.cfg CfgKey.WNI_CFG_JOIN_FAILURE_TIMEOUT),
                    reloadTicks := 0, autoActivate := false}]
  if env.createOk TimerKindC.joinFailure = false then Except.error a4 else
  let a5 := a4 ++ [{kind := TimerKindC.assocFailure,
                    initTicks := SYS_MS_TO_TICKS (env.cfg CfgKey.WNI_CFG_ASSOCIATION_FAILURE_TIMEOUT),
                    reloadTicks := 0, autoActivate := false}]
  if env.createOk TimerKindC.assocFailure = false then Except.error a5 else
  let a6 := a5 ++ [{kind := TimerKindC.reassocFailure,
                    initTicks := SYS_MS_TO_TICKS (env.cfg CfgKey.WNI_CFG_REASSOCIATION_FAILURE_TIMEOUT),
                    reloadTicks := 0, autoActivate := false}]
  if env.createOk TimerKindC.reassocFailure = false then Except.error a6 else
  let a7 := a6 ++ [{kind := TimerKindC.addtsRsp,
                    initTicks := SYS_MS_TO_TICKS (env.cfg CfgKey.WNI_CFG_ADDTS_RSP_TIMEOUT),
                    reloadTicks := 0, autoActivate := false}]
  if env.createOk TimerKindC.addtsRsp = false then Except.error a7 else
  let a8 := a7 ++ [{kind := TimerKindC.authFailure,
                    initTicks := SYS_MS_TO_TICKS (env.cfg CfgKey.WNI_CFG_AUTHENTICATE_FAILURE_TIMEOUT),
                    reloadTicks := 0, autoActivate := false}]
  if env.createOk TimerKindC.authFailure = false then Except.error a8 else
  let a9 := a8 ++ [{kind := TimerKindC.heartBeat,
                    initTicks := SYS_MS_TO_TICKS (env.cfg CfgKey.WNI_CFG_BEACON_INTERVAL),
                    reloadTicks := 0, autoActivate := false}]
  let a10 := a9 ++ [{kind := TimerKindC.probeAfterHB,
                     initTicks := SYS_MS_TO_TICKS (env.cfg CfgKey.WNI_CFG_PROBE_AFTER_HB_FAIL_TIMEOUT),
                     reloadTicks := 0, autoActivate := false}]
  let bg := env.cfg CfgKey.WNI_CFG_BACKGROUND_SCAN_PERIOD
  let bgTicks := SYS_MS_TO_TICKS (backgroundScanResolvedMs bg)
  let a11 := a10 ++ [{kind := TimerKindC.backgroundScan, initTicks := bgTicks,
                      reloadTicks := bgTicks, autoActivate := false}]
  Except.ok (a11, some (backgroundScanDisableFlag bg))

/-- `limCreateTimers` (limTimerUtils.c:72-628) in the prima client
configuration, as a trace of the `tx_timer_create` calls it issues plus
the flags it assigns.  The MIN/MAX channel timers abort the function on
creation failure; the not-AP-role block is `createStaBlock`; the
disassociate-threshold, keep-alive and CNF-wait creations only log on
failure; the pre-auth table allocation aborts the function on failure;
the OLBC creation only logs; the FT-preauth-response and
remain-on-channel creations abort on failure; only a full run sets
`gLimTimersCreated`. -/
def limCreateTimers (env : CreateEnv) : CreateOut :=
  let a1 := [({kind := TimerKindC.minChannel,
               initTicks := SYS_MS_TO_TICKS (env.cfg CfgKey.WNI_CFG_ACTIVE_MINIMUM_CHANNEL_TIME),
               reloadTicks := 0, autoActivate := false} : TimerCreate)]
  if env.createOk TimerKindC.minChannel = false then
    {attempts := a1, gLimBackgroundScanDisable := none, schKeepAlive := none,
     preAuthNumEntry := none, preAuthAllocated := false, gLimTimersCreated := false} else
  let a2 := a1 ++ [{kind := TimerKindC.maxChannel,
                    initTicks := SYS_MS_TO_TICKS (env.cfg CfgKey.WNI_CFG_ACTIVE_MAXIMUM_CHANNEL_TIME),
                    reloadTicks := 0, autoActivate := false}]
  if env.createOk TimerKindC.maxChannel = false then
    {attempts := a2, gLimBackgroundScanDisable := none, schKeepAlive := none,
     preAuthNumEntry := none, preAuthAllocated := false, gLimTimersCreated := false} else
  match (if env.role = SystemRole.eLIM_AP_ROLE then Except.ok (a2, (none : Option Bool))
         else createStaBlock env a2) with
  | Except.error ae =>
      {attempts := ae, gLimBackgroundScanDisable := none, schKeepAlive := none,
       preAuthNumEntry := none, preAuthAllocated := false, gLimTimersCreated := false}
  | Except.ok (a3, bgFlag) =>
      let hashTicks := SYS_MS_TO_TICKS LIM_HASH_MISS_TIMER_MS
      let a4 := a3 ++ [{kind := TimerKindC.disassocThreshold, initTicks := hashTicks,
                        reloadTicks := hashTicks, autoActivate := true}]
      let kv := env.cfg CfgKey.WNI_CFG_KEEPALIVE_TIMEOUT
      let a5 := a4 ++ [{kind := TimerKindC.keepalive, initTicks := keepaliveTicks kv,
                        reloadTicks := keepaliveTicks kv,
                        autoActivate := env.role == SystemRole.eLIM_AP_ROLE}]
      let cnfTicks := SYS_MS_TO_TICKS (env.cfg CfgKey.WNI_CFG_WT_CNF_TIMEOUT)
      let a6 := a5 ++ (List.range env.maxStation).map
        (fun i => {kind := TimerKindC.cnfWait i, initTicks := cnfTicks,
                   reloadTicks := 0, autoActivate := false})
      let numPre := env.cfg CfgKey.WNI_CFG_MAX_NUM_PRE_AUTH
      if env.allocOk = false then
        {attempts := a6, gLimBackgroundScanDisable := bgFlag,
         schKeepAlive := some (keepaliveFlag kv), preAuthNumEntry := some numPre,
         preAuthAllocated := false, gLimTimersCreated := false} else
      let olbcTicks := SYS_MS_TO_TICKS (env.cfg CfgKey.WNI_CFG_OLBC_DETECT_TIMEOUT)
      let a7 := a6 ++ [{kind := TimerKindC.olbc, initTicks := olbcTicks,
                        reloadTicks := olbcTicks, autoActivate := true}]
      let a8 := a7 ++ [{kind := TimerKindC.ftPreAuthRsp, initTicks := SYS_MS_TO_TICKS 1000,
                        reloadTicks := 0, autoActivate := false}]
      if env.createOk TimerKindC.ftPreAuthRsp = false then
        {attempts := a8, gLimBackgroundScanDisable := bgFlag,
         schKeepAlive := some (keepaliveFlag kv), preAuthNumEntry := some numPre,
         preAuthAllocated := true, gLimTimersCreated := false} else
      let a9 := a8 ++ [{kind := TimerKindC.remainOnChannel, initTicks := SYS_MS_TO_TICKS 1000,
                        reloadTicks := 0, autoActivate := false}]
      if env.createOk TimerKindC.remainOnChannel = false then
        {attempts := a9, gLimBackgroundScanDisable := bgFlag,
         schKeepAlive := some (keepaliveFlag kv), preAuthNumEntry := some numPre,
         preAuthAllocated := true, gLimTimersCreated := false}
      else
        {attempts := a9, gLimBackgroundScanDisable := bgFlag,
         schKeepAlive := some (keepaliveFlag kv), preAuthNumEntry := some numPre,
         preAuthAllocated := true, gLimTimersCreated := true}

/-- The creation successes that are fatal to `limCreateTimers` when they
fail: every timer whose `tx_timer_create` failure executes `return`. -/
def FatalOk (env : CreateEnv) : Prop :=
  env.createOk TimerKindC.minChannel = true ∧
  env.createOk TimerKindC.maxChannel = true ∧
  env.createOk TimerKindC.channelSwitch = true ∧
  env.createOk TimerKindC.quietBegin = true ∧
  env.createOk TimerKindC.quietBss = true ∧
  env.createOk TimerKindC.joinFailure = true ∧
  env.createOk TimerKindC.assocFailure = true ∧
  env.createOk TimerKindC.reassocFailure = true ∧
  env.createOk TimerKindC.addtsRsp = true ∧
  env.createOk TimerKindC.authFailure = true ∧
  env.createOk TimerKindC.ftPreAuthRsp = true ∧
  env.createOk TimerKindC.remainOnChannel = true

/-- An inactive timer with all fields zero, used to build concrete
states. -/
def sampleTimer : TxTimer :=
  {active := false, initTicks := 0, reloadTicks := 0, tmrSignature := 0,
   initScheduleTimeInMsecs := 0, sessionId := 0}

/-- A concrete session entry. -/
def sampleSession : PESession := {beaconInterval := 100, peSessionId := 7}

/-- A concrete MAC state: station role, quiet machinery idle with
`quietDuration = 40` ticks and `quietTimeoutValue = 25` ms, no scan
request, an active MIN-channel timer, a CNF-wait pool of capacity 1 and
a pre-auth table with one entry. -/
def sampleMac : AniSirGlobal :=
  {cfg := fun _ => 100,
   gLimSystemRole := SystemRole.eLIM_STA_ROLE,
   gLimSpecMgmt := {quietState := QuietState.eLIM_QUIET_INIT, quietDuration := 40,
                    quietTimeoutValue := 25},
   gLimTriggerBackgroundScanDuringQuietBss := false,
   gpLimMlmScanReq := none,
   gLimBackgroundScanDisable := false,
   schKeepAlive := 0,
   gLimMinChannelTimer := {sampleTimer with active := true, initTicks := 17},
   gLimMaxChannelTimer := sampleTimer,
   gLimHeartBeatTimer := sampleTimer,
   gLimKeepaliveTimer := sampleTimer,
   gLimBackgroundScanTimer := sampleTimer,
   gLimQuietTimer := sampleTimer,
   gLimQuietBssTimer := sampleTimer,
   gpLimCnfWaitTimer := [sampleTimer],
   gLimPreAuthTimerTable := [{timer := sampleTimer}]}

/-- `sampleMac` with the quiet window running and background scan
during quiet permitted. -/
def quietScanMac : AniSirGlobal :=
  {sampleMac with
    gLimSpecMgmt := {quietState := QuietState.eLIM_QUIET_RUNNING, quietDuration := 40,
                     quietTimeoutValue := 25}
    gLimTriggerBackgroundScanDuringQuietBss := true}

/-- `sampleMac` with an active scan request (min 30 ms, max 130 ms). -/
def scanMac : AniSirGlobal :=
  {sampleMac with gpLimMlmScanReq := some {minChannelTime := 30, maxChannelTime := 130}}

/-- `sampleMac` with the keep-alive timeout configured to 0. -/
def kaZeroMac : AniSirGlobal :=
  {sampleMac with cfg := fun k =>
    match k with
    | CfgKey.WNI_CFG_KEEPALIVE_TIMEOUT => 0
    | _ => 100}

/-- `sampleMac` with the background-scan period configured to 0. -/
def bgZeroMac : AniSirGlobal :=
  {sampleMac with cfg := fun k =>
    match k with
    | CfgKey.WNI_CFG_BACKGROUND_SCAN_PERIOD => 0
    | _ => 100}

/-- A creation environment in which every timer creation and the
pre-auth allocation succeed (station role, pool capacity 2). -/
def envAllOk : CreateEnv :=
  {cfg := fun _ => 100, role := SystemRole.eLIM_STA_ROLE, maxStation := 2,
   createOk := fun _ => true, allocOk := true}

/-- `envAllOk` except that creating the MIN-channel timer fails. -/
def envMinFail : CreateEnv :=
  {envAllOk with createOk := fun k =>
    match k with
    | TimerKindC.minChannel => false
    | _ => true}

/-- `envAllOk` except that the pre-auth table allocation fails. -/
def envAllocFail : CreateEnv :=
  {envAllOk with allocOk := false}

/-- `envAllOk` except that creating the heart-beat timer fails. -/
def envHbFail : CreateEnv :=
  {envAllOk with createOk := fun k =>
    match k with
    | TimerKindC.heartBeat => false
    | _ => true}

/-- `envAllOk` except that creating the QuietBegin timer fails. -/
def envQuietFail : CreateEnv :=
  {envAllOk with createOk := fun k =>
    match k with
    | TimerKindC.quietBegin => false
    | _ => true}

/-- Ceiling bounds of the add-tick-minus-one-then-divide rounding (with
the 10 ms tick): the resulting tick count covers the requested
milliseconds and overshoots by less than one tick. -/
theorem ceil_tick_bounds (v : Nat) :
    v ≤ (v + 10 - 1) / 10 * 10 ∧ (v + 10 - 1) / 10 * 10 < v + 10 := by
  have h1 := Nat.div_add_mod (v + 10 - 1) 10
  have h2 : (v + 10 - 1) % 10 < 10 := Nat.mod_lt _ (by norm_num)
  omega

/-- C1 (counterexample): at `sampleMac`, whose stored
`quietTimeoutValue` is 25, the QuietBegin (`eLIM_QUIET_TIMER`)
reconfiguration passes `SYS_MS_TO_TICKS 25 = 2` to `tx_timer_change`,
not the stored value used as-is, refuting the claim that no unit
conversion is applied to `quietTimeoutValue`. -/
theorem c1_counterexample :
    (limDeactivateAndChangeTimer sampleMac TimerId.eLIM_QUIET_TIMER).gLimQuietTimer.initTicks ≠
      sampleMac.gLimSpecMgmt.quietTimeoutValue := by decide

/-- C1 (amended): every QuietBssEnforce (`eLIM_QUIET_BSS_TIMER`)
reconfiguration passes the stored `quietDuration` to `tx_timer_change`
as-is (already in ticks), while every QuietBegin (`eLIM_QUIET_TIMER`)
reconfiguration converts the stored `quietTimeoutValue` from
milliseconds to ticks via `SYS_MS_TO_TICKS` first; both are one-shot
(reload 0). -/
theorem c1_quiet_reconfig_durations (pMac : AniSirGlobal) :
    (limDeactivateAndChangeTimer pMac TimerId.eLIM_QUIET_BSS_TIMER).gLimQuietBssTimer.initTicks =
      pMac.gLimSpecMgmt.quietDuration ∧
    (limDeactivateAndChangeTimer pMac TimerId.eLIM_QUIET_BSS_TIMER).gLimQuietBssTimer.reloadTicks = 0 ∧
    (limDeactivateAndChangeTimer pMac TimerId.eLIM_QUIET_TIMER).gLimQuietTimer.initTicks =
      SYS_MS_TO_TICKS pMac.gLimSpecMgmt.quietTimeoutValue ∧
    (limDeactivateAndChangeTimer pMac TimerId.eLIM_QUIET_TIMER).gLimQuietTimer.reloadTicks = 0 := by
  refine ⟨?_, ?_, ?_, ?_⟩ <;>
    simp [limDeactivateAndChangeTimer, tx_timer_deactivate, tx_timer_change]

/-- C2 (counterexample): at `sampleMac`, whose CNF-wait pool has
capacity 1, the CNF-wait reconfiguration with staId 3 performs an
out-of-bounds array access instead of detecting the index and returning
an invalid-index error. -/
theorem c2_counterexample :
    limDeactivateAndChangePerStaIdTimer sampleMac PerStaTimerId.eLIM_CNF_WAIT_TIMER 3 =
      PerStaResult.outOfBounds := rfl

/-- C2 (amended): only the AuthResponse pool path is bounds-checked: an
index past the pre-auth table makes `limDeactivateAndChangePerStaIdTimer`
report the invalid index and return with the state untouched.  The
ConfirmationWait pool operations perform no bounds check: an index past
`gpLimCnfWaitTimer` makes both `limDeactivateAndChangePerStaIdTimer`
and `limActivateCnfTimer` access the array out of bounds. -/
theorem c2_pool_bounds (pMac : AniSirGlobal) (i : Nat) :
    (pMac.gLimPreAuthTimerTable.length ≤ i →
      limDeactivateAndChangePerStaIdTimer pMac PerStaTimerId.eLIM_AUTH_RSP_TIMER i =
        PerStaResult.invalidIndex pMac) ∧
    (pMac.gpLimCnfWaitTimer.length ≤ i →
      limDeactivateAndChangePerStaIdTimer pMac PerStaTimerId.eLIM_CNF_WAIT_TIMER i =
        PerStaResult.outOfBounds) ∧
    (pMac.gpLimCnfWaitTimer.length ≤ i → ∀ se : PESession,
      limActivateCnfTimer pMac i se = PerStaResult.outOfBounds) := by
  refine ⟨fun h => ?_, fun h => ?_, fun h se => ?_⟩
  · have hg : pMac.gLimPreAuthTimerTable[i]? = none := List.getElem?_eq_none h
    simp [limDeactivateAndChangePerStaIdTimer, limGetPreAuthNodeFromIndex, hg]
  · have hg : pMac.gpLimCnfWaitTimer[i]? = none := List.getElem?_eq_none h
    simp [limDeactivateAndChangePerStaIdTimer, hg]
  · have hg : pMac.gpLimCnfWaitTimer[i]? = none := List.getElem?_eq_none h
    simp [limActivateCnfTimer, hg]

/-- C2 (witness): at `sampleMac` (both pools of capacity 1) with index
3, the AuthResponse path returns the invalid-index error with the state
untouched while both ConfirmationWait operations go out of bounds. -/
theorem c2_witness :
    limDeactivateAndChangePerStaIdTimer sampleMac PerStaTimerId.eLIM_AUTH_RSP_TIMER 3 =
      PerStaResult.invalidIndex sampleMac ∧
    limDeactivateAndChangePerStaIdTimer sampleMac PerStaTimerId.eLIM_CNF_WAIT_TIMER 3 =
      PerStaResult.outOfBounds ∧
    limActivateCnfTimer sampleMac 3 sampleSession = PerStaResult.outOfBounds :=
  ⟨(c2_pool_bounds sampleMac 3).1 (by decide),
   (c2_pool_bounds sampleMac 3).2.1 (by decide),
   (c2_pool_bounds sampleMac 3).2.2 (by decide) sampleSession⟩

/-- C3 (counterexample): at `sampleMac` (quiet not running, no scan
request, MIN-channel timer active), the MIN-channel reconfiguration
does NOT leave the timer's state unchanged: the timer has already been
deactivated when the duration change is skipped. -/
theorem c3_counterexample :
    sampleMac.gLimMinChannelTimer.active = true ∧
    sampleMac.gpLimMlmScanReq = none ∧
    (limDeactivateAndChangeTimer sampleMac TimerId.eLIM_MIN_CHANNEL_TIMER).gLimMinChannelTimer.active =
      false := by decide

/-- C3 (amended): for the MinChannelDwell and MaxChannelDwell
reconfigurations: with the quiet window running and background scan
during quiet permitted the new duration is the stored `quietDuration`
(no conversion); otherwise with an active scan request it is the
request's min/max channel time converted ms→ticks; and with no scan
request only the duration change is skipped — the duration and reload
stay unchanged but the timer has already been deactivated (its active
flag is cleared); the MaxChannelDwell derivation applies in non-AP
role. -/
theorem c3_channel_dwell_reconfig (pMac : AniSirGlobal) :
    (pMac.gLimSpecMgmt.quietState = QuietState.eLIM_QUIET_RUNNING ∧
       pMac.gLimTriggerBackgroundScanDuringQuietBss = true →
      (limDeactivateAndChangeTimer pMac TimerId.eLIM_MIN_CHANNEL_TIMER).gLimMinChannelTimer.initTicks =
        pMac.gLimSpecMgmt.quietDuration ∧
      (pMac.gLimSystemRole ≠ SystemRole.eLIM_AP_ROLE →
        (limDeactivateAndChangeTimer pMac TimerId.eLIM_MAX_CHANNEL_TIMER).gLimMaxChannelTimer.initTicks =
          pMac.gLimSpecMgmt.quietDuration)) ∧
    (¬(pMac.gLimSpecMgmt.quietState = QuietState.eLIM_QUIET_RUNNING ∧
        pMac.gLimTriggerBackgroundScanDuringQuietBss = true) →
      (∀ req, pMac.gpLimMlmScanReq = some req →
        (limDeactivateAndChangeTimer pMac TimerId.eLIM_MIN_CHANNEL_TIMER).gLimMinChannelTimer.initTicks =
          SYS_MS_TO_TICKS req.minChannelTime ∧
        (pMac.gLimSystemRole ≠ SystemRole.eLIM_AP_ROLE →
          (limDeactivateAndChangeTimer pMac TimerId.eLIM_MAX_CHANNEL_TIMER).gLimMaxChannelTimer.initTicks =
            SYS_MS_TO_TICKS req.maxChannelTime)) ∧
      (pMac.gpLimMlmScanReq = none →
        limDeactivateAndChangeTimer pMac TimerId.eLIM_MIN_CHANNEL_TIMER =
          {pMac with gLimMinChannelTimer := {pMac.gLimMinChannelTimer with active := false}} ∧
        (pMac.gLimSystemRole ≠ SystemRole.eLIM_AP_ROLE →
          limDeactivateAndChangeTimer pMac TimerId.eLIM_MAX_CHANNEL_TIMER =
            {pMac with gLimMaxChannelTimer := {pMac.gLimMaxChannelTimer with active := false}}))) := by
  refine ⟨fun h => ⟨?_, fun hr => ?_⟩,
    fun hn => ⟨fun req hreq => ⟨?_, fun hr => ?_⟩, fun hnone => ⟨?_, fun hr => ?_⟩⟩⟩
  · simp [limDeactivateAndChangeTimer, tx_timer_deactivate, tx_timer_change, h.1, h.2]
  · simp [limDeactivateAndChangeTimer, tx_timer_deactivate, tx_timer_change, h.1, h.2, hr]
  · simp only [limDeactivateAndChangeTimer]
    rw [if_neg hn, hreq]
    simp [tx_timer_deactivate, tx_timer_change]
  · simp only [limDeactivateAndChangeTimer]
    rw [if_pos hr, if_neg hn, hreq]
    simp [tx_timer_deactivate, tx_timer_change]
  · simp only [limDeactivateAndChangeTimer]
    rw [if_neg hn, hnone]
    simp [tx_timer_deactivate]
  · simp only [limDeactivateAndChangeTimer]
    rw [if_pos hr, if_neg hn, hnone]
    simp [tx_timer_deactivate]

/-- C3 (witness): at `quietScanMac` the MIN-channel duration becomes
the quiet duration; at `scanMac` it becomes the converted min channel
time; at `sampleMac` (no scan request) the call only deactivates the
MIN-channel timer, leaving duration and reload unchanged. -/
theorem c3_witness :
    (limDeactivateAndChangeTimer quietScanMac TimerId.eLIM_MIN_CHANNEL_TIMER).gLimMinChannelTimer.initTicks =
      quietScanMac.gLimSpecMgmt.quietDuration ∧
    (∀ req, scanMac.gpLimMlmScanReq = some req →
      (limDeactivateAndChangeTimer scanMac TimerId.eLIM_MIN_CHANNEL_TIMER).gLimMinChannelTimer.initTicks =
        SYS_MS_TO_TICKS req.minChannelTime) ∧
    limDeactivateAndChangeTimer sampleMac TimerId.eLIM_MIN_CHANNEL_TIMER =
      {sampleMac with gLimMinChannelTimer := {sampleMac.gLimMinChannelTimer with active := false}} :=
  ⟨((c3_channel_dwell_reconfig quietScanMac).1 (by decide)).1,
   fun req hreq => ((((c3_channel_dwell_reconfig scanMac).2 (by decide)).1 req hreq)).1,
   (((c3_channel_dwell_reconfig sampleMac).2 (by decide)).2 rfl).1⟩

/-- C4 (counterexample): in `envMinFail` (only the MIN-channel timer
creation fails; everything else, including the pre-auth allocation,
succeeds), `limCreateTimers` aborts immediately: the MIN-channel
creation is the only `tx_timer_create` ever issued and the function
never completes — refuting the claim that any single creation failure
lets creation of the remaining timers proceed, with pool allocation the
only fatal failure. -/
theorem c4_counterexample :
    (limCreateTimers envMinFail).attempts.map TimerCreate.kind = [TimerKindC.minChannel] ∧
    (limCreateTimers envMinFail).gLimTimersCreated = false ∧
    envMinFail.allocOk = true := by decide

/-- C4 (amended): in `limCreateTimers`, a creation failure of any of
the thirteen fatal items aborts the function immediately — no further
creation is attempted and the function never completes — each shown by
a conjunct whose hypotheses only require the creations *preceding* that
item to succeed: MIN-channel, MAX-channel, then (in non-AP role)
channel-switch, QuietBegin, QuietBss, join-failure, assoc-failure,
reassoc-failure, ADDTS-response, auth-failure, then the pre-auth
allocation, FT-preauth-response and remain-on-channel.  Conversely,
when every fatal creation (`FatalOk`) and the pre-auth allocation
succeed, the function runs to completion regardless of the outcome of
the fire-and-continue creations (heart-beat, probe-after-HB,
background-scan, disassociate-threshold, keep-alive, CNF-wait, OLBC),
issuing the full creation sequence. -/
theorem c4_create_abort_policy (env : CreateEnv) :
    (env.createOk TimerKindC.minChannel = false →
      (limCreateTimers env).attempts.map TimerCreate.kind = [TimerKindC.minChannel] ∧
      (limCreateTimers env).gLimTimersCreated = false) ∧
    (env.role = SystemRole.eLIM_STA_ROLE → FatalOk env → env.allocOk = true →
      (limCreateTimers env).gLimTimersCreated = true ∧
      (limCreateTimers env).preAuthAllocated = true ∧
      (limCreateTimers env).attempts.map TimerCreate.kind =
        [TimerKindC.minChannel, TimerKindC.maxChannel, TimerKindC.channelSwitch,
         TimerKindC.quietBegin, TimerKindC.quietBss, TimerKindC.joinFailure,
         TimerKindC.assocFailure, TimerKindC.reassocFailure, TimerKindC.addtsRsp,
         TimerKindC.authFailure, TimerKindC.heartBeat, TimerKindC.probeAfterHB,
         TimerKindC.backgroundScan, TimerKindC.disassocThreshold, TimerKindC.keepalive] ++
        (List.range env.maxStation).map TimerKindC.cnfWait ++
        [TimerKindC.olbc, TimerKindC.ftPreAuthRsp, TimerKindC.remainOnChannel]) ∧
    (env.role = SystemRole.eLIM_STA_ROLE → FatalOk env → env.allocOk = false →
      (limCreateTimers env).gLimTimersCreated = false ∧
      (limCreateTimers env).preAuthAllocated = false ∧
      (limCreateTimers env).attempts.map TimerCreate.kind =
        [TimerKindC.minChannel, TimerKindC.maxChannel, TimerKindC.channelSwitch,
         TimerKindC.quietBegin, TimerKindC.quietBss, TimerKindC.joinFailure,
         TimerKindC.assocFailure, TimerKindC.reassocFailure, TimerKindC.addtsRsp,
         TimerKindC.authFailure, TimerKindC.heartBeat, TimerKindC.probeAfterHB,
         TimerKindC.backgroundScan, TimerKindC.disassocThreshold, TimerKindC.keepalive] ++
        (List.range env.maxStation).map TimerKindC.cnfWait) ∧
    (env.createOk TimerKindC.minChannel = true →
      env.createOk TimerKindC.maxChannel = false →
      (limCreateTimers env).attempts.map TimerCreate.kind =
        [TimerKindC.minChannel, TimerKindC.maxChannel] ∧
      (limCreateTimers env).gLimTimersCreated = false) ∧
    (env.role = SystemRole.eLIM_STA_ROLE →
      env.createOk TimerKindC.minChannel = true →
      env.createOk TimerKindC.maxChannel = true →
      env.createOk TimerKindC.channelSwitch = false →
      (limCreateTimers env).attempts.map TimerCreate.kind =
        [TimerKindC.minChannel, TimerKindC.maxChannel, TimerKindC.channelSwitch] ∧
      (limCreateTimers env).gLimTimersCreated = false) ∧
    (env.role = SystemRole.eLIM_STA_ROLE →
      env.createOk TimerKindC.minChannel = true →
      env.createOk TimerKindC.maxChannel = true →
      env.createOk TimerKindC.channelSwitch = true →
      env.createOk TimerKindC.quietBegin = false →
      (limCreateTimers env).attempts.map TimerCreate.kind =
        [TimerKindC.minChannel, TimerKindC.maxChannel, TimerKindC.channelSwitch,
         TimerKindC.quietBegin] ∧
      (limCreateTimers env).gLimTimersCreated = false) ∧
    (env.role = SystemRole.eLIM_STA_ROLE →
      env.createOk TimerKindC.minChannel = true →
      env.createOk TimerKindC.maxChannel = true →
      env.createOk TimerKindC.channelSwitch = true →
      env.createOk TimerKindC.quietBegin = true →
      env.createOk TimerKindC.quietBss = false →
      (limCreateTimers env).attempts.map TimerCreate.kind =
        [TimerKindC.minChannel, TimerKindC.maxChannel, TimerKindC.channelSwitch,
         TimerKindC.quietBegin, TimerKindC.quietBss] ∧
      (limCreateTimers env).gLimTimersCreated = false) ∧
    (env.role = SystemRole.eLIM_STA_ROLE →
      env.createOk TimerKindC.minChannel = true →
      env.createOk TimerKindC.maxChannel = true →
      env.createOk TimerKindC.channelSwitch = true →
      env.createOk TimerKindC.quietBegin = true →
      env.createOk TimerKindC.quietBss = true →
      env.createOk TimerKindC.joinFailure = false →
      (limCreateTimers env).attempts.map TimerCreate.kind =
        [TimerKindC.minChannel, TimerKindC.maxChannel, TimerKindC.channelSwitch,
         TimerKindC.quietBegin, TimerKindC.quietBss, TimerKindC.joinFailure] ∧
      (limCreateTimers env).gLimTimersCreated = false) ∧
    (env.role = SystemRole.eLIM_STA_ROLE →
      env.createOk TimerKindC.minChannel = true →
      env.createOk TimerKindC.maxChannel = true →
      env.createOk TimerKindC.channelSwitch = true →
      env.createOk TimerKindC.quietBegin = true →
      env.createOk TimerKindC.quietBss = true →
      env.createOk TimerKindC.joinFailure = true →
      env.createOk TimerKindC.assocFailure = false →
      (limCreateTimers env).attempts.map TimerCreate.kind =
        [TimerKindC.minChannel, TimerKindC.maxChannel, TimerKindC.channelSwitch,
         TimerKindC.quietBegin, TimerKindC.quietBss, TimerKindC.joinFailure,
         TimerKindC.assocFailure] ∧
      (limCreateTimers env).gLimTimersCreated = false) ∧
    (env.role = SystemRole.eLIM_STA_ROLE →
      env.createOk TimerKindC.minChannel = true →
      env.createOk TimerKindC.maxChannel = true →
      env.createOk TimerKindC.channelSwitch = true →
      env.createOk TimerKindC.quietBegin = true →
      env.createOk TimerKindC.quietBss = true →
      env.createOk TimerKindC.joinFailure = true →
      env.createOk TimerKindC.assocFailure = true →
      env.createOk TimerKindC.reassocFailure = false →
      (limCreateTimers env).attempts.map TimerCreate.kind =
        [TimerKindC.minChannel, TimerKindC.maxChannel, TimerKindC.channelSwitch,
         TimerKindC.quietBegin, TimerKindC.quietBss, TimerKindC.joinFailure,
         TimerKindC.assocFailure, TimerKindC.reassocFailure] ∧
      (limCreateTimers env).gLimTimersCreated = false) ∧
    (env.role = SystemRole.eLIM_STA_ROLE →
      env.createOk TimerKindC.minChannel = true →
      env.createOk TimerKindC.maxChannel = true →
      env.createOk TimerKindC.channelSwitch = true →
      env.createOk TimerKindC.quietBegin = true →
      env.createOk TimerKindC.quietBss = true →
      env.createOk TimerKindC.joinFailure = true →
      env.createOk TimerKindC.assocFailure = true →
      env.createOk TimerKindC.reassocFailure = true →
      env.createOk TimerKindC.addtsRsp = false →
      (limCreateTimers env).attempts.map TimerCreate.kind =
        [TimerKindC.minChannel, TimerKindC.maxChannel, TimerKindC.channelSwitch,
         TimerKindC.quietBegin, TimerKindC.quietBss, TimerKindC.joinFailure,
         TimerKindC.assocFailure, TimerKindC.reassocFailure, TimerKindC.addtsRsp] ∧
      (limCreateTimers env).gLimTimersCreated = false) ∧
    (env.role = SystemRole.eLIM_STA_ROLE →
      env.createOk TimerKindC.minChannel = true →
      env.createOk TimerKindC.maxChannel = true →
      env.createOk TimerKindC.channelSwitch = true →
      env.createOk TimerKindC.quietBegin = true →
      env.createOk TimerKindC.quietBss = true →
      env.createOk TimerKindC.joinFailure = true →
      env.createOk TimerKindC.assocFailure = true →
      env.createOk TimerKindC.reassocFailure = true →
      env.createOk TimerKindC.addtsRsp = true →
      env.createOk TimerKindC.authFailure = false →
      (limCreateTimers env).attempts.map TimerCreate.kind =
        [TimerKindC.minChannel, TimerKindC.maxChannel, TimerKindC.channelSwitch,
         TimerKindC.quietBegin, TimerKindC.quietBss, TimerKindC.joinFailure,
         TimerKindC.assocFailure, TimerKindC.reassocFailure, TimerKindC.addtsRsp,
         TimerKindC.authFailure] ∧
      (limCreateTimers env).gLimTimersCreated = false) ∧
    (env.role = SystemRole.eLIM_STA_ROLE →
      env.createOk TimerKindC.minChannel = true →
      env.createOk TimerKindC.maxChannel = true →
      env.createOk TimerKindC.channelSwitch = true →
      env.createOk TimerKindC.quietBegin = true →
      env.createOk TimerKindC.quietBss = true →
      env.createOk TimerKindC.joinFailure = true →
      env.createOk TimerKindC.assocFailure = true →
      env.createOk TimerKindC.reassocFailure = true →
      env.createOk TimerKindC.addtsRsp = true →
      env.createOk TimerKindC.authFailure = true →
      env.allocOk = true →
      env.createOk TimerKindC.ftPreAuthRsp = false →
      (limCreateTimers env).attempts.map TimerCreate.kind =
        [TimerKindC.minChannel, TimerKindC.maxChannel, TimerKindC.channelSwitch,
         TimerKindC.quietBegin, TimerKindC.quietBss, TimerKindC.joinFailure,
         TimerKindC.assocFailure, TimerKindC.reassocFailure, TimerKindC.addtsRsp,
         TimerKindC.authFailure, TimerKindC.heartBeat, TimerKindC.probeAfterHB,
         TimerKindC.backgroundScan, TimerKindC.disassocThreshold, TimerKindC.keepalive] ++
        (List.range env.maxStation).map TimerKindC.cnfWait ++
        [TimerKindC.olbc, TimerKindC.ftPreAuthRsp] ∧
      (limCreateTimers env).gLimTimersCreated = false) ∧
    (env.role = SystemRole.eLIM_STA_ROLE →
      env.createOk TimerKindC.minChannel = true →
      env.createOk TimerKindC.maxChannel = true →
      env.createOk TimerKindC.channelSwitch = true →
      env.createOk TimerKindC.quietBegin = true →
      env.createOk TimerKindC.quietBss = true →
      env.createOk TimerKindC.joinFailure = true →
      env.createOk TimerKindC.assocFailure = true →
      env.createOk TimerKindC.reassocFailure = true →
      env.createOk TimerKindC.addtsRsp = true →
      env.createOk TimerKindC.authFailure = true →
      env.allocOk = true →
      env.createOk TimerKindC.ftPreAuthRsp = true →
      env.createOk TimerKindC.remainOnChannel = false →
      (limCreateTimers env).attempts.map TimerCreate.kind =
        [TimerKindC.minChannel, TimerKindC.maxChannel, TimerKindC.channelSwitch,
         TimerKindC.quietBegin, TimerKindC.quietBss, TimerKindC.joinFailure,
         TimerKindC.assocFailure, TimerKindC.reassocFailure, TimerKindC.addtsRsp,
         TimerKindC.authFailure, TimerKindC.heartBeat, TimerKindC.probeAfterHB,
         TimerKindC.backgroundScan, TimerKindC.disassocThreshold, TimerKindC.keepalive] ++
        (List.range env.maxStation).map TimerKindC.cnfWait ++
        [TimerKindC.olbc, TimerKindC.ftPreAuthRsp, TimerKindC.remainOnChannel] ∧
      (limCreateTimers env).gLimTimersCreated = false) := by
  refine ⟨fun hmin => ?_, fun hrole hf ha => ?_, fun hrole hf ha => ?_,
    fun h1 h2 => ?_, fun hrole h1 h2 h3 => ?_, fun hrole h1 h2 h3 h4 => ?_,
    fun hrole h1 h2 h3 h4 h5 => ?_, fun hrole h1 h2 h3 h4 h5 h6 => ?_,
    fun hrole h1 h2 h3 h4 h5 h6 h7 => ?_, fun hrole h1 h2 h3 h4 h5 h6 h7 h8 => ?_,
    fun hrole h1 h2 h3 h4 h5 h6 h7 h8 h9 => ?_,
    fun hrole h1 h2 h3 h4 h5 h6 h7 h8 h9 h10 => ?_,
    fun hrole h1 h2 h3 h4 h5 h6 h7 h8 h9 h10 ha h11 => ?_,
    fun hrole h1 h2 h3 h4 h5 h6 h7 h8 h9 h10 ha h11 h12 => ?_⟩
  · simp [limCreateTimers, hmin]
  · obtain ⟨f1, f2, f3, f4, f5, f6, f7, f8, f9, f10, f11, f12⟩ := hf
    simp [limCreateTimers, createStaBlock, hrole, ha, f1, f2, f3, f4, f5, f6,
      f7, f8, f9, f10, f11, f12, List.map_map, Function.comp]
  · obtain ⟨f1, f2, f3, f4, f5, f6, f7, f8, f9, f10, f11, f12⟩ := hf
    simp [limCreateTimers, createStaBlock, hrole, ha, f1, f2, f3, f4, f5, f6,
      f7, f8, f9, f10, f11, f12, List.map_map, Function.comp]
  · simp [limCreateTimers, h1, h2]
  · simp [limCreateTimers, createStaBlock, hrole, h1, h2, h3]
  · simp [limCreateTimers, createStaBlock, hrole, h1, h2, h3, h4]
  · simp [limCreateTimers, createStaBlock, hrole, h1, h2, h3, h4, h5]
  · simp [limCreateTimers, createStaBlock, hrole, h1, h2, h3, h4, h5, h6]
  · simp [limCreateTimers, createStaBlock, hrole, h1, h2, h3, h4, h5, h6, h7]
  · simp [limCreateTimers, createStaBlock, hrole, h1, h2, h3, h4, h5, h6, h7, h8]
  · simp [limCreateTimers, createStaBlock, hrole, h1, h2, h3, h4, h5, h6, h7, h8, h9]
  · simp [limCreateTimers, createStaBlock, hrole, h1, h2, h3, h4, h5, h6, h7, h8, h9, h10]
  · simp [limCreateTimers, createStaBlock, hrole, ha, h1, h2, h3, h4, h5, h6, h7, h8,
      h9, h10, h11, List.map_map, Function.comp]
  · simp [limCreateTimers, createStaBlock, hrole, ha, h1, h2, h3, h4, h5, h6, h7, h8,
      h9, h10, h11, h12, List.map_map, Function.comp]

/-- C4 (witness): with only the heart-beat creation failing
(`envHbFail`), `limCreateTimers` still runs to completion; with the
pre-auth allocation failing (`envAllocFail`), it aborts; and with only
the QuietBegin creation failing (`envQuietFail`), it aborts right after
that creation with nothing further attempted. -/
theorem c4_witness :
    (limCreateTimers envHbFail).gLimTimersCreated = true ∧
    envHbFail.createOk TimerKindC.heartBeat = false ∧
    (limCreateTimers envAllocFail).gLimTimersCreated = false ∧
    (limCreateTimers envQuietFail).gLimTimersCreated = false ∧
    (limCreateTimers envQuietFail).attempts.map TimerCreate.kind =
      [TimerKindC.minChannel, TimerKindC.maxChannel, TimerKindC.channelSwitch,
       TimerKindC.quietBegin] :=
  ⟨((c4_create_abort_policy envHbFail).2.1 rfl
      ⟨rfl, rfl, rfl, rfl, rfl, rfl, rfl, rfl, rfl, rfl, rfl, rfl⟩ rfl).1,
   by decide,
   ((c4_create_abort_policy envAllocFail).2.2.1 rfl
      ⟨rfl, rfl, rfl, rfl, rfl, rfl, rfl, rfl, rfl, rfl, rfl, rfl⟩ rfl).1,
   ((c4_create_abort_policy envQuietFail).2.2.2.2.2.1 rfl rfl rfl rfl rfl).2,
   ((c4_create_abort_policy envQuietFail).2.2.2.2.2.1 rfl rfl rfl rfl rfl).1⟩

/-- C5: on every keep-alive reconfiguration a configured 0 yields the
3000 ms default rounded to a whole number of ticks (exactly 3000 ms)
with `sch.keepAlive` cleared; a nonzero value `v` sets `sch.keepAlive`
and yields the ceiling of `v` to a full tick (the duration covers `v`
and overshoots by less than one tick, computed by adding
`SYS_TICK_DUR_MS - 1` before the ms→ticks conversion); in both cases
the reload interval equals the duration.  The creation path resolves
the same values through `keepaliveTicks` and `keepaliveFlag`, used with
equal initial and reload ticks in `limCreateTimers`. -/
theorem c5_keepalive_resolution (pMac : AniSirGlobal) :
    (pMac.cfg CfgKey.WNI_CFG_KEEPALIVE_TIMEOUT = 0 →
      (limDeactivateAndChangeTimer pMac TimerId.eLIM_KEEPALIVE_TIMER).schKeepAlive = 0 ∧
      (limDeactivateAndChangeTimer pMac TimerId.eLIM_KEEPALIVE_TIMER).gLimKeepaliveTimer.initTicks *
        SYS_TICK_DUR_MS = LIM_KEEPALIVE_TIMER_MS) ∧
    (pMac.cfg CfgKey.WNI_CFG_KEEPALIVE_TIMEOUT ≠ 0 →
      (limDeactivateAndChangeTimer pMac TimerId.eLIM_KEEPALIVE_TIMER).schKeepAlive = 1 ∧
      pMac.cfg CfgKey.WNI_CFG_KEEPALIVE_TIMEOUT ≤
        (limDeactivateAndChangeTimer pMac TimerId.eLIM_KEEPALIVE_TIMER).gLimKeepaliveTimer.initTicks *
          SYS_TICK_DUR_MS ∧
      (limDeactivateAndChangeTimer pMac TimerId.eLIM_KEEPALIVE_TIMER).gLimKeepaliveTimer.initTicks *
        SYS_TICK_DUR_MS < pMac.cfg CfgKey.WNI_CFG_KEEPALIVE_TIMEOUT + SYS_TICK_DUR_MS) ∧
    (limDeactivateAndChangeTimer pMac TimerId.eLIM_KEEPALIVE_TIMER).gLimKeepaliveTimer.reloadTicks =
      (limDeactivateAndChangeTimer pMac TimerId.eLIM_KEEPALIVE_TIMER).gLimKeepaliveTimer.initTicks ∧
    (keepaliveTicks 0 * SYS_TICK_DUR_MS = LIM_KEEPALIVE_TIMER_MS ∧ keepaliveFlag 0 = 0) ∧
    (∀ v, v ≠ 0 → keepaliveFlag v = 1 ∧ v ≤ keepaliveTicks v * SYS_TICK_DUR_MS ∧
      keepaliveTicks v * SYS_TICK_DUR_MS < v + SYS_TICK_DUR_MS) := by
  refine ⟨fun h0 => ?_, fun hne => ?_, ?_, ?_, fun v hv => ?_⟩
  · constructor
    · simp [limDeactivateAndChangeTimer, tx_timer_deactivate, tx_timer_change,
        wlan_cfgGetInt, h0]
    · simp [limDeactivateAndChangeTimer, tx_timer_deactivate, tx_timer_change,
        wlan_cfgGetInt, h0, SYS_MS_TO_TICKS, SYS_TICK_DUR_MS, LIM_KEEPALIVE_TIMER_MS]
  · refine ⟨?_, ?_, ?_⟩
    · simp [limDeactivateAndChangeTimer, tx_timer_deactivate, tx_timer_change,
        wlan_cfgGetInt, hne]
    · simp only [limDeactivateAndChangeTimer, tx_timer_deactivate, tx_timer_change,
        wlan_cfgGetInt, hne, if_false, if_neg, SYS_MS_TO_TICKS, SYS_TICK_DUR_MS]
      simp [hne]
      exact (ceil_tick_bounds _).1
    · simp only [limDeactivateAndChangeTimer, tx_timer_deactivate, tx_timer_change,
        wlan_cfgGetInt, hne, if_false, if_neg, SYS_MS_TO_TICKS, SYS_TICK_DUR_MS]
      simp [hne]
      exact (ceil_tick_bounds _).2
  · simp [limDeactivateAndChangeTimer, tx_timer_deactivate, tx_timer_change, wlan_cfgGetInt]
  · constructor
    · simp [keepaliveTicks, keepaliveResolvedMs, SYS_MS_TO_TICKS, SYS_TICK_DUR_MS,
        LIM_KEEPALIVE_TIMER_MS]
    · simp [keepaliveFlag]
  · refine ⟨by simp [keepaliveFlag, hv], ?_, ?_⟩
    · simp only [keepaliveTicks, keepaliveResolvedMs, SYS_MS_TO_TICKS, SYS_TICK_DUR_MS, hv,
        if_false]
      simp [hv]
      exact (ceil_tick_bounds v).1
    · simp only [keepaliveTicks, keepaliveResolvedMs, SYS_MS_TO_TICKS, SYS_TICK_DUR_MS, hv,
        if_false]
      simp [hv]
      exact (ceil_tick_bounds v).2

/-- C5 (witness): with the keep-alive timeout configured to 0
(`kaZeroMac`) the flag is cleared and the duration equals exactly
3000 ms; with it configured to 100 (`sampleMac`) the flag is set. -/
theorem c5_witness :
    (limDeactivateAndChangeTimer kaZeroMac TimerId.eLIM_KEEPALIVE_TIMER).schKeepAlive = 0 ∧
    (limDeactivateAndChangeTimer kaZeroMac TimerId.eLIM_KEEPALIVE_TIMER).gLimKeepaliveTimer.initTicks *
      SYS_TICK_DUR_MS = LIM_KEEPALIVE_TIMER_MS ∧
    (limDeactivateAndChangeTimer sampleMac TimerId.eLIM_KEEPALIVE_TIMER).schKeepAlive = 1 :=
  ⟨((c5_keepalive_resolution kaZeroMac).1 rfl).1,
   ((c5_keepalive_resolution kaZeroMac).1 rfl).2,
   ((c5_keepalive_resolution sampleMac).2.1 (by decide)).1⟩

/-- C6: every heart-beat reconfiguration recomputes the duration as the
beacon interval times the heart-beat threshold, converted ms→ticks,
from the values live at the time of the call: `limDeactivateAndChangeTimer`
reads both from the configuration store, `limHeartBeatDeactivateAndChangeTimer`
reads the beacon interval from the session entry and the threshold from
the configuration store; the result is independent of whatever the
timer held before the call (nothing is cached in the timer). -/
theorem c6_heartbeat_recompute (pMac : AniSirGlobal) (se : PESession) :
    (limDeactivateAndChangeTimer pMac TimerId.eLIM_HEART_BEAT_TIMER).gLimHeartBeatTimer.initTicks =
      SYS_MS_TO_TICKS (pMac.cfg CfgKey.WNI_CFG_BEACON_INTERVAL *
        pMac.cfg CfgKey.WNI_CFG_HEART_BEAT_THRESHOLD) ∧
    (limHeartBeatDeactivateAndChangeTimer pMac se).gLimHeartBeatTimer.initTicks =
      SYS_MS_TO_TICKS (se.beaconInterval * pMac.cfg CfgKey.WNI_CFG_HEART_BEAT_THRESHOLD) ∧
    (∀ t : TxTimer,
      (limDeactivateAndChangeTimer {pMac with gLimHeartBeatTimer := t}
        TimerId.eLIM_HEART_BEAT_TIMER).gLimHeartBeatTimer.initTicks =
      (limDeactivateAndChangeTimer pMac TimerId.eLIM_HEART_BEAT_TIMER).gLimHeartBeatTimer.initTicks) ∧
    (∀ t : TxTimer,
      (limHeartBeatDeactivateAndChangeTimer {pMac with gLimHeartBeatTimer := t}
        se).gLimHeartBeatTimer.initTicks =
      (limHeartBeatDeactivateAndChangeTimer pMac se).gLimHeartBeatTimer.initTicks) := by
  refine ⟨?_, ?_, fun t => ?_, fun t => ?_⟩ <;>
    simp [limDeactivateAndChangeTimer, limHeartBeatDeactivateAndChangeTimer,
      tx_timer_deactivate, tx_timer_change, wlan_cfgGetInt]

/-- C7: when the configured value resolves to 0 the background-scan and
keep-alive reconfigurations do not skip the timer: it is rearmed with
the kind-specific default period (5000 ms for background scan, 3000 ms
for keep-alive) with the disable flag set (`gLimBackgroundScanDisable`
true, `sch.keepAlive` 0); nonzero values clear the flag and are used;
the creation path applies the same policy through
`backgroundScanResolvedMs`/`backgroundScanDisableFlag` and
`keepaliveResolvedMs`/`keepaliveFlag`. -/
theorem c7_zero_disable_policy (pMac : AniSirGlobal) :
    (pMac.cfg CfgKey.WNI_CFG_BACKGROUND_SCAN_PERIOD = 0 →
      (limDeactivateAndChangeTimer pMac TimerId.eLIM_BACKGROUND_SCAN_TIMER).gLimBackgroundScanDisable =
        true ∧
      (limDeactivateAndChangeTimer pMac TimerId.eLIM_BACKGROUND_SCAN_TIMER).gLimBackgroundScanTimer.initTicks =
        SYS_MS_TO_TICKS LIM_BACKGROUND_SCAN_PERIOD_DEFAULT_MS ∧
      (limDeactivateAndChangeTimer pMac TimerId.eLIM_BACKGROUND_SCAN_TIMER).gLimBackgroundScanTimer.reloadTicks =
        (limDeactivateAndChangeTimer pMac TimerId.eLIM_BACKGROUND_SCAN_TIMER).gLimBackgroundScanTimer.initTicks) ∧
    (pMac.cfg CfgKey.WNI_CFG_BACKGROUND_SCAN_PERIOD ≠ 0 →
      (limDeactivateAndChangeTimer pMac TimerId.eLIM_BACKGROUND_SCAN_TIMER).gLimBackgroundScanDisable =
        false ∧
      (limDeactivateAndChangeTimer pMac TimerId.eLIM_BACKGROUND_SCAN_TIMER).gLimBackgroundScanTimer.initTicks =
        SYS_MS_TO_TICKS (pMac.cfg CfgKey.WNI_CFG_BACKGROUND_SCAN_PERIOD)) ∧
    (pMac.cfg CfgKey.WNI_CFG_KEEPALIVE_TIMEOUT = 0 →
      (limDeactivateAndChangeTimer pMac TimerId.eLIM_KEEPALIVE_TIMER).schKeepAlive = 0 ∧
      (limDeactivateAndChangeTimer pMac TimerId.eLIM_KEEPALIVE_TIMER).gLimKeepaliveTimer.initTicks =
        SYS_MS_TO_TICKS (LIM_KEEPALIVE_TIMER_MS + SYS_TICK_DUR_MS - 1)) ∧
    (pMac.cfg CfgKey.WNI_CFG_KEEPALIVE_TIMEOUT ≠ 0 →
      (limDeactivateAndChangeTimer pMac TimerId.eLIM_KEEPALIVE_TIMER).schKeepAlive = 1) ∧
    (backgroundScanDisableFlag 0 = true ∧
     backgroundScanResolvedMs 0 = LIM_BACKGROUND_SCAN_PERIOD_DEFAULT_MS ∧
     keepaliveFlag 0 = 0 ∧ keepaliveResolvedMs 0 = LIM_KEEPALIVE_TIMER_MS) ∧
    (∀ v, v ≠ 0 → backgroundScanDisableFlag v = false ∧ backgroundScanResolvedMs v = v ∧
      keepaliveFlag v = 1 ∧ keepaliveResolvedMs v = v) := by
  refine ⟨fun h0 => ?_, fun hne => ?_, fun h0 => ?_, fun hne => ?_, ?_, fun v hv => ?_⟩
  · refine ⟨?_, ?_, ?_⟩ <;>
      simp [limDeactivateAndChangeTimer, tx_timer_deactivate, tx_timer_change,
        wlan_cfgGetInt, h0]
  · constructor <;>
      simp [limDeactivateAndChangeTimer, tx_timer_deactivate, tx_timer_change,
        wlan_cfgGetInt, hne]
  · constructor <;>
      simp [limDeactivateAndChangeTimer, tx_timer_deactivate, tx_timer_change,
        wlan_cfgGetInt, h0, LIM_KEEPALIVE_TIMER_MS]
  · simp [limDeactivateAndChangeTimer, tx_timer_deactivate, tx_timer_change,
      wlan_cfgGetInt, hne]
  · simp [backgroundScanDisableFlag, backgroundScanResolvedMs, keepaliveFlag,
      keepaliveResolvedMs]
  · simp [backgroundScanDisableFlag, backgroundScanResolvedMs, keepaliveFlag,
      keepaliveResolvedMs, hv]

/-- C7 (witness): with the background-scan period configured to 0
(`bgZeroMac`) the timer is rearmed with the 5000 ms default and the
disable flag is set; with it configured to 100 (`sampleMac`) the flag
is cleared. -/
theorem c7_witness :
    (limDeactivateAndChangeTimer bgZeroMac TimerId.eLIM_BACKGROUND_SCAN_TIMER).gLimBackgroundScanDisable =
      true ∧
    (limDeactivateAndChangeTimer bgZeroMac TimerId.eLIM_BACKGROUND_SCAN_TIMER).gLimBackgroundScanTimer.initTicks =
      SYS_MS_TO_TICKS LIM_BACKGROUND_SCAN_PERIOD_DEFAULT_MS ∧
    (limDeactivateAndChangeTimer sampleMac TimerId.eLIM_BACKGROUND_SCAN_TIMER).gLimBackgroundScanDisable =
      false :=
  ⟨((c7_zero_disable_policy bgZeroMac).1 rfl).1,
   ((c7_zero_disable_policy bgZeroMac).1 rfl).2.1,
   ((c7_zero_disable_policy sampleMac).2.1 (by decide)).1⟩

/-- C8: every expiry handler of the file is a pure dispatcher
(`DispatchOnly`): per invocation it leaves the MAC state (configuration
store and all timers) untouched, constructs and enqueues exactly one
typed event — whose content does not depend on the MAC state, so no
configuration lookup is involved — and on enqueue failure (full sink)
drops the event leaving the sink unchanged, with no retry. -/
theorem c8_handlers_dispatch_only :
    DispatchOnly limTimerHandler (fun p => {type := p, bodyval := 0}) ∧
    DispatchOnly limCnfWaitTmerHandler (fun p => {type := SIR_LIM_CNF_WAIT_TIMEOUT, bodyval := p}) ∧
    DispatchOnly limKeepaliveTmerHandler (fun p => {type := SIR_LIM_KEEPALIVE_TIMEOUT, bodyval := p}) ∧
    DispatchOnly limAddtsResponseTimerHandler
      (fun p => {type := SIR_LIM_ADDTS_RSP_TIMEOUT, bodyval := p}) ∧
    DispatchOnly limAuthResponseTimerHandler
      (fun p => {type := SIR_LIM_AUTH_RSP_TIMEOUT, bodyval := p}) ∧
    DispatchOnly limAssocFailureTimerHandler
      (fun p => {type := SIR_LIM_ASSOC_FAIL_TIMEOUT, bodyval := p}) ∧
    DispatchOnly limChannelSwitchTimerHandler
      (fun p => {type := SIR_LIM_CHANNEL_SWITCH_TIMEOUT, bodyval := p}) ∧
    DispatchOnly limQuietTimerHandler (fun p => {type := SIR_LIM_QUIET_TIMEOUT, bodyval := p}) ∧
    DispatchOnly limQuietBssTimerHandler
      (fun p => {type := SIR_LIM_QUIET_BSS_TIMEOUT, bodyval := p}) ∧
    DispatchOnly limSendDisassocFrameThresholdHandler
      (fun _ => {type := SIR_LIM_HASH_MISS_THRES_TIMEOUT, bodyval := 0}) ∧
    DispatchOnly limUpdateOlbcCacheTimerHandler
      (fun _ => {type := SIR_LIM_UPDATE_OLBC_CACHEL_TIMEOUT, bodyval := 0}) := by
  have base : ∀ mk : Nat → SirMsgQ,
      DispatchOnly (fun pMac q param => (pMac, (limPostMsgApi q (mk param)).1)) mk := by
    intro mk pMac q param
    refine ⟨rfl, fun hlt => ?_, fun hge => ?_⟩
    · simp [limPostMsgApi, hlt]
    · simp [limPostMsgApi, Nat.not_lt.2 hge]
  exact ⟨base _, base _, base _, base _, base _, base _, base _, base _, base _,
    base _, base _⟩

/-- C8 (witness): `limTimerHandler` with parameter 7 appends exactly
the one event `{type 7, body 0}` to a sink with room, and leaves a full
sink (capacity 0) unchanged, with the MAC state untouched in both
cases. -/
theorem c8_witness :
    (limTimerHandler sampleMac {msgs := [], capacity := 4} 7).1 = sampleMac ∧
    (limTimerHandler sampleMac {msgs := [], capacity := 4} 7).2.msgs =
      [({type := 7, bodyval := 0} : SirMsgQ)] ∧
    (limTimerHandler sampleMac {msgs := [], capacity := 0} 7).2 =
      {msgs := [], capacity := 0} := by
  refine ⟨(c8_handlers_dispatch_only.1 sampleMac {msgs := [], capacity := 4} 7).1, ?_, ?_⟩
  · have h := (c8_handlers_dispatch_only.1 sampleMac {msgs := [], capacity := 4} 7).2.1
      (by decide)
    simpa using h
  · exact (c8_handlers_dispatch_only.1 sampleMac {msgs := [], capacity := 0} 7).2.2
      (by decide)

/-- C9: `limActivateHearBeatTimer` returns `TX_TIMER_ERROR` without
activating anything when the heart-beat timer's signature is invalid;
with a valid signature and a zero initial schedule time it performs no
activation and still returns `TX_SUCCESS`; with a valid signature and a
nonzero initial schedule time it activates the timer.  The same
zero-interval guard prevents activation in
`limReactivateHeartBeatTimer`. -/
theorem c9_heartbeat_activation_guard (pMac : AniSirGlobal) (se : PESession) :
    (pMac.gLimHeartBeatTimer.tmrSignature ≠ TX_AIRGO_TMR_SIGNATURE →
      limActivateHearBeatTimer pMac = (TX_TIMER_ERROR, pMac)) ∧
    (pMac.gLimHeartBeatTimer.tmrSignature = TX_AIRGO_TMR_SIGNATURE →
      pMac.gLimHeartBeatTimer.initScheduleTimeInMsecs = 0 →
      limActivateHearBeatTimer pMac = (TX_SUCCESS, pMac)) ∧
    (pMac.gLimHeartBeatTimer.tmrSignature = TX_AIRGO_TMR_SIGNATURE →
      pMac.gLimHeartBeatTimer.initScheduleTimeInMsecs ≠ 0 →
      pMac.gLimHeartBeatTimer.active = false →
      (limActivateHearBeatTimer pMac).2.gLimHeartBeatTimer.active = true) ∧
    ((limHeartBeatDeactivateAndChangeTimer pMac se).gLimHeartBeatTimer.initScheduleTimeInMsecs = 0 →
      limReactivateHeartBeatTimer pMac se = limHeartBeatDeactivateAndChangeTimer pMac se) := by
  refine ⟨fun hsig => ?_, fun hsig h0 => ?_, fun hsig hne hact => ?_, fun h0 => ?_⟩
  · simp [limActivateHearBeatTimer, hsig]
  · simp [limActivateHearBeatTimer, hsig, h0]
  · simp [limActivateHearBeatTimer, tx_timer_activate, hsig, hne, hact]
  · simp [limReactivateHeartBeatTimer, h0]

/-- C9 (witness): at `sampleMac` the heart-beat timer's signature is 0,
not `TX_AIRGO_TMR_SIGNATURE`, so the activation call returns
`TX_TIMER_ERROR` with the state untouched. -/
theorem c9_witness :
    limActivateHearBeatTimer sampleMac = (TX_TIMER_ERROR, sampleMac) :=
  (c9_heartbeat_activation_guard sampleMac sampleSession).1 (by decide)

/-- C10: whenever the pre-auth table lookup returns no node,
`limDeactivateAndChangePerStaIdTimer` with `eLIM_AUTH_RSP_TIMER`
reports the invalid index and returns with the entire state unchanged —
no timer is deactivated or changed (atomic no-op). -/
theorem c10_auth_rsp_invalid_index_noop (pMac : AniSirGlobal) (staId : Nat)
    (h : limGetPreAuthNodeFromIndex pMac.gLimPreAuthTimerTable staId = none) :
    limDeactivateAndChangePerStaIdTimer pMac PerStaTimerId.eLIM_AUTH_RSP_TIMER staId =
      PerStaResult.invalidIndex pMac := by
  simp [limDeactivateAndChangePerStaIdTimer, h]

/-- C10 (witness): at `sampleMac` (pre-auth table of one entry) the
lookup at index 5 returns no node and the call returns the
invalid-index report with the state unchanged. -/
theorem c10_witness :
    limDeactivateAndChangePerStaIdTimer sampleMac PerStaTimerId.eLIM_AUTH_RSP_TIMER 5 =
      PerStaResult.invalidIndex sampleMac :=
  c10_auth_rsp_invalid_index_noop sampleMac 5 rfl

end LimModel
